import Mathlib

/-!
A verification development for the TEI management engine of
drivers/isdn/mISDN/tei.c: the Q.921-style layer-2 TEI negotiation state
machine, the frame codec, the inbound dispatch with its role rules, and
the single-frame-in-flight outbound queue.

The embedding is shallow: each C function of tei.c becomes a Lean
function on an explicit state record.  Machine bytes are Nat with the
masks and shifts written out; the kernel helpers that are not part of
the provided sources (the generic FSM/timer service of fsm.c, tei_l2 of
layer2.c, the random source) are modelled as explicit state fields and
an explicit randomness supply, as the specification describes them.
Debug printing (printdebug / printk) has no observable effect and is
dropped.
-/

set_option linter.unusedVariables false

/-- Message type constants of tei.c (lines 24-30). -/
def ID_REQUEST : Nat := 1

/-- ID_ASSIGNED message type (tei.c). -/
def ID_ASSIGNED : Nat := 2

/-- ID_DENIED message type (tei.c). -/
def ID_DENIED : Nat := 3

/-- ID_CHK_REQ message type (tei.c). -/
def ID_CHK_REQ : Nat := 4

/-- ID_CHK_RES message type (tei.c). -/
def ID_CHK_RES : Nat := 5

/-- ID_REMOVE message type (tei.c). -/
def ID_REMOVE : Nat := 6

/-- ID_VERIFY message type (tei.c). -/
def ID_VERIFY : Nat := 7

/-- TEI_ENTITY_ID constant of tei.c (0xf), byte 3 of a management frame. -/
def TEI_ENTITY_ID : Nat := 0xf

/-- Modelled from the spec: GROUP_TEI = 127 is defined in the mISDN
headers, which are not under the provided sources; the spec glossary
fixes it to 127 (broadcast / unassigned sentinel). -/
def GROUP_TEI : Nat := 127

/-- Modelled from the spec: TEI_SAPI is defined in layer2.h (not under
the provided sources); it is the Q.921 management SAPI 63 used as the
6-bit SAPI field of the wire format. -/
def TEI_SAPI : Nat := 63

/-- Modelled from the spec: UI is the unnumbered-information control
code 0x03 from layer2.h (not under the provided sources); byte 2 of a
frame is compared against it under the 0xef mask. -/
def UI : Nat := 0x03

/-- Modelled from the spec: MISDN_ID_NONE is the sentinel correlation
id meaning none, from mISDNif.h (not under the provided sources). -/
def MISDN_ID_NONE : Nat := 0xffffffff

/-- FSM states of the per-entity TEI state machine (tei.c lines 39-43):
NOP is the spec state Idle, IDREQ is RequestingId, IDVERIFY is
Verifying. -/
inductive TeiState where
  | ST_TEI_NOP
  | ST_TEI_IDREQ
  | ST_TEI_IDVERIFY
deriving DecidableEq, Repr

/-- The four bytes starting at offset 4 of an inbound management frame,
the dp argument handed to the FSM handlers by ph_data_ind
(skb data bytes 4..7): b0 b1 carry the reference value, b2 the message
type, b3 the encoded TEI. -/
structure Dp where
  b0 : Nat
  b1 : Nat
  b2 : Nat
  b3 : Nat
deriving DecidableEq, Repr

/-- FSM events of tei.c (lines 56-65), with the event argument carried
inline: frame events carry the dp bytes, EV_IDREQ / EV_VERIFY /
EV_TIMER carry NULL in the source. -/
inductive Ev where
  | idreq
  | assign (dp : Dp)
  | assignReq (dp : Dp)
  | denied (dp : Dp)
  | chkreq (dp : Dp)
  | remove (dp : Dp)
  | verify
  | timer
deriving DecidableEq, Repr

/-- One call of put_tei_msg, recorded as an outbound management message
with its sender index and the three codec arguments. -/
structure SentMsg where
  sender : Nat
  mId : Nat
  ri : Nat
  tei : Nat
deriving DecidableEq, Repr

/-- The tei_l2 upward primitives used by tei.c: MDL_ASSIGN_REQ carries
the assigned tei (AssignmentComplete), MDL_ERROR_RSP reports failure
(AssignmentFailed), MDL_REMOVE_REQ asks for release (RemovalRequested). -/
inductive Prim where
  | mdlAssignReq
  | mdlErrorRsp
  | mdlRemoveReq
deriving DecidableEq, Repr

/-- One call of tei_l2, recorded as an upward notification on the
target entity index. -/
structure Notif where
  target : Nat
  prim : Prim
  arg : Nat
deriving DecidableEq, Repr

/-- One layer-2 entity together with its teimgr session state: tei and
sapi and the FLG_FIXED_TEI / FLG_LAPD_NET flags live on struct layer2,
the FSM state, reference value ri, retry counter nval, timer interval
tval and the pending-timer flag live on struct teimgr.  nval is Int
exactly like the C int counter.  The pending-timer flag models the
generic FSM timer collaborator of fsm.c (not under the provided
sources): mISDN_FsmAddTimer arms it, mISDN_FsmDelTimer clears it, and
expiry clears it before delivering EV_TIMER. -/
structure Ent where
  tei : Nat
  sapi : Nat
  fixedTei : Bool
  lapdNet : Bool
  state : TeiState
  ri : Nat
  nval : Int
  tval : Nat
  timerPending : Bool
deriving DecidableEq, Repr

/-- Default entity used by List.getD lookups; out-of-range indices
leave the system unchanged because List.set is then the identity. -/
def ent0 : Ent :=
  { tei := GROUP_TEI, sapi := 0, fixedTei := false, lapdNet := false,
    state := .ST_TEI_NOP, ri := 0, nval := 0, tval := 1000,
    timerPending := false }

/-- The mISDNmanager state relevant to the TEI state machines: the
layer2 entity list, the MGR_OPT_NETWORK and MGR_OPT_USER option bits,
an explicit randomness supply standing for get_random_bytes, and the
observable traces of sent management messages and upward tei_l2
notifications. -/
structure TeiSys where
  ents : List Ent
  net : Bool
  user : Bool
  rng : List Nat
  msgs : List SentMsg
  notifs : List Notif
deriving DecidableEq, Repr

/-- random_ri of tei.c returns a fresh 16-bit value from
get_random_bytes; modelled as the head of the explicit randomness
supply reduced to a u16. -/
def random_ri_val (rng : List Nat) : Nat := rng.headD 0 % 65536

/-- Inner loop of findtei (tei.c lines 179-195) returning the index of
the first entity with sapi 0, a positive tei different from GROUP_TEI,
and tei equal to the requested value. -/
def findteiGo : List Ent → Nat → Nat → Option Nat
  | [], _, _ => none
  | e :: rest, k, tei =>
      if e.sapi = 0 ∧ 0 < e.tei ∧ e.tei ≠ GROUP_TEI ∧ e.tei = tei then some k
      else findteiGo rest (k + 1) tei

/-- findtei of tei.c: first registered entity currently bound to the
given tei, as an index into the entity list. -/
def findtei (l : List Ent) (tei : Nat) : Option Nat := findteiGo l 0 tei

/-- tei_id_request (tei.c lines 222-241): on EV_IDREQ in ST_TEI_NOP,
if the entity already has a tei the handler only logs and returns;
otherwise it draws a fresh random ri, sends ID_REQUEST(ri, GROUP_TEI),
enters ST_TEI_IDREQ, arms the timer and sets nval to 3. -/
def tei_id_request (s : TeiSys) (i : Nat) : TeiSys :=
  let e := s.ents.getD i ent0
  if e.tei ≠ GROUP_TEI then s
  else
    let r := random_ri_val s.rng
    { s with
      ents := s.ents.set i
        { e with ri := r, state := .ST_TEI_IDREQ, timerPending := true, nval := 3 },
      rng := s.rng.tail,
      msgs := s.msgs ++ [⟨i, ID_REQUEST, r, GROUP_TEI⟩] }

/-- tei_assign_req (tei.c lines 243-261): network-side direct assign;
without an own tei the handler only logs; otherwise it takes ri from
the frame bytes, replies ID_ASSIGNED(ri, own tei) and stays in
ST_TEI_NOP. -/
def tei_assign_req (s : TeiSys) (i : Nat) (dp : Dp) : TeiSys :=
  let e := s.ents.getD i ent0
  if e.tei = GROUP_TEI then s
  else
    let r := dp.b0 * 256 + dp.b1
    { s with
      ents := s.ents.set i { e with ri := r, state := .ST_TEI_NOP },
      msgs := s.msgs ++ [⟨i, ID_ASSIGNED, r, e.tei⟩] }

/-- tei_id_assign (tei.c lines 263-290): on EV_ASSIGN in ST_TEI_IDREQ,
decode ri and tei from the frame; if findtei shows the tei already in
use by a registered entity, report MDL_ERROR_RSP on that entity when
its stored ri differs; otherwise, when the frame ri matches the own
outstanding ri, delete the timer, go to ST_TEI_NOP and hand the tei up
with MDL_ASSIGN_REQ.  Modelled from the spec: tei_l2 lives in layer2.c
(not under the provided sources); per the spec its MDL_ASSIGN_REQ
effect sets the entity tei to the assigned value and notifies
AssignmentComplete, so the completion branch also updates the tei
field here. -/
def tei_id_assign (s : TeiSys) (i : Nat) (dp : Dp) : TeiSys :=
  let e := s.ents.getD i ent0
  let ri := dp.b0 * 256 + dp.b1
  let tei := dp.b3 / 2
  match findtei s.ents tei with
  | some j =>
      if ri ≠ (s.ents.getD j ent0).ri then
        { s with notifs := s.notifs ++ [⟨j, .mdlErrorRsp, 0⟩] }
      else s
  | none =>
      if ri = e.ri then
        { s with
          ents := s.ents.set i
            { e with timerPending := false, state := .ST_TEI_NOP, tei := tei },
          notifs := s.notifs ++ [⟨i, .mdlAssignReq, tei⟩] }
      else s

/-- tei_id_verify (tei.c lines 368-380): send ID_VERIFY(0, own tei),
enter ST_TEI_IDVERIFY, arm the timer, set nval to 2. -/
def tei_id_verify (s : TeiSys) (i : Nat) : TeiSys :=
  let e := s.ents.getD i ent0
  { s with
    ents := s.ents.set i
      { e with state := .ST_TEI_IDVERIFY, timerPending := true, nval := 2 },
    msgs := s.msgs ++ [⟨i, ID_VERIFY, 0, e.tei⟩] }

/-- tei_id_test_dup (tei.c lines 292-314): on EV_ASSIGN in ST_TEI_NOP,
decode ri and tei; if a registered entity already holds that tei and
its stored ri differs from the frame ri, raise EV_VERIFY on that other
session.  The mISDN_FsmEvent call is inlined: per the TeiFnList table
EV_VERIFY is handled only in ST_TEI_NOP (by tei_id_verify) and ignored
in every other state. -/
def tei_id_test_dup (s : TeiSys) (i : Nat) (dp : Dp) : TeiSys :=
  let ri := dp.b0 * 256 + dp.b1
  let tei := dp.b3 / 2
  match findtei s.ents tei with
  | some j =>
      if ri ≠ (s.ents.getD j ent0).ri then
        if (s.ents.getD j ent0).state = .ST_TEI_NOP then tei_id_verify s j else s
      else s
  | none => s

/-- tei_id_denied (tei.c lines 316-330): decode and log only; no state
change, no message, no notification. -/
def tei_id_denied (s : TeiSys) (i : Nat) (dp : Dp) : TeiSys := s

/-- tei_id_chk_req (tei.c lines 332-347): if the own tei is assigned
and the frame tei matches it exactly or is GROUP_TEI, delete the
timer, go to ST_TEI_NOP and reply ID_CHK_RES with a fresh random ri
and the own tei. -/
def tei_id_chk_req (s : TeiSys) (i : Nat) (dp : Dp) : TeiSys :=
  let e := s.ents.getD i ent0
  let tei := dp.b3 / 2
  if e.tei ≠ GROUP_TEI ∧ (tei = GROUP_TEI ∨ tei = e.tei) then
    { s with
      ents := s.ents.set i { e with timerPending := false, state := .ST_TEI_NOP },
      rng := s.rng.tail,
      msgs := s.msgs ++ [⟨i, ID_CHK_RES, random_ri_val s.rng, e.tei⟩] }
  else s

/-- tei_id_remove (tei.c lines 349-366): if the own tei is assigned
and the frame tei matches it exactly or is GROUP_TEI, delete the
timer, go to ST_TEI_NOP and hand MDL_REMOVE_REQ up. -/
def tei_id_remove (s : TeiSys) (i : Nat) (dp : Dp) : TeiSys :=
  let e := s.ents.getD i ent0
  let tei := dp.b3 / 2
  if e.tei ≠ GROUP_TEI ∧ (tei = GROUP_TEI ∨ tei = e.tei) then
    { s with
      ents := s.ents.set i { e with timerPending := false, state := .ST_TEI_NOP },
      notifs := s.notifs ++ [⟨i, .mdlRemoveReq, 0⟩] }
  else s

/-- tei_id_req_tout (tei.c lines 382-400): on timer expiry in
ST_TEI_IDREQ, pre-decrement nval; while non-zero draw a new random ri,
resend ID_REQUEST and rearm the timer; at zero report MDL_ERROR_RSP
upward and fall back to ST_TEI_NOP. -/
def tei_id_req_tout (s : TeiSys) (i : Nat) : TeiSys :=
  let e := s.ents.getD i ent0
  if e.nval - 1 ≠ 0 then
    let r := random_ri_val s.rng
    { s with
      ents := s.ents.set i { e with nval := e.nval - 1, ri := r, timerPending := true },
      rng := s.rng.tail,
      msgs := s.msgs ++ [⟨i, ID_REQUEST, r, GROUP_TEI⟩] }
  else
    { s with
      ents := s.ents.set i { e with nval := e.nval - 1, state := .ST_TEI_NOP },
      notifs := s.notifs ++ [⟨i, .mdlErrorRsp, 0⟩] }

/-- tei_id_ver_tout (tei.c lines 402-421): on timer expiry in
ST_TEI_IDVERIFY, pre-decrement nval; while non-zero resend
ID_VERIFY(0, own tei) and rearm the timer; at zero hand MDL_REMOVE_REQ
up and fall back to ST_TEI_NOP. -/
def tei_id_ver_tout (s : TeiSys) (i : Nat) : TeiSys :=
  let e := s.ents.getD i ent0
  if e.nval - 1 ≠ 0 then
    { s with
      ents := s.ents.set i { e with nval := e.nval - 1, timerPending := true },
      msgs := s.msgs ++ [⟨i, ID_VERIFY, 0, e.tei⟩] }
  else
    { s with
      ents := s.ents.set i { e with nval := e.nval - 1, state := .ST_TEI_NOP },
      notifs := s.notifs ++ [⟨i, .mdlRemoveReq, 0⟩] }

/-- mISDN_FsmEvent restricted to the TeiFnList table (tei.c lines
546-560): each listed (state, event) pair runs its handler, every
other pair is ignored.  The generic FSM engine of fsm.c is not under
the provided sources; per the spec it is the external state-machine
collaborator that dispatches an event to the handler registered for
the current state, doing nothing when none is registered. -/
def fsmEvent (s : TeiSys) (i : Nat) (ev : Ev) : TeiSys :=
  let st := (s.ents.getD i ent0).state
  match ev with
  | .idreq => if st = .ST_TEI_NOP then tei_id_request s i else s
  | .assign dp =>
      if st = .ST_TEI_NOP then tei_id_test_dup s i dp
      else if st = .ST_TEI_IDREQ then tei_id_assign s i dp
      else s
  | .assignReq dp => if st = .ST_TEI_NOP then tei_assign_req s i dp else s
  | .denied dp => if st = .ST_TEI_IDREQ then tei_id_denied s i dp else s
  | .chkreq dp =>
      if st = .ST_TEI_NOP ∨ st = .ST_TEI_IDVERIFY then tei_id_chk_req s i dp else s
  | .remove dp =>
      if st = .ST_TEI_NOP ∨ st = .ST_TEI_IDVERIFY then tei_id_remove s i dp else s
  | .verify => if st = .ST_TEI_NOP then tei_id_verify s i else s
  | .timer =>
      if st = .ST_TEI_IDREQ then tei_id_req_tout s i
      else if st = .ST_TEI_IDVERIFY then tei_id_ver_tout s i
      else s

/-- Expiry of the session timer.  Modelled from the spec: the timer
service of fsm.c (not under the provided sources) fires at most once
per armed timer, so expiry clears the pending flag and then delivers
EV_TIMER into the owning session; with no pending timer nothing
happens. -/
def fireTimer (s : TeiSys) (i : Nat) : TeiSys :=
  let e := s.ents.getD i ent0
  if e.timerPending = true then
    fsmEvent { s with ents := s.ents.set i { e with timerPending := false } } i .timer
  else s

/-- tei_ph_data_ind (tei.c lines 423-440): a fixed-TEI entity that is
not network side discards every management message; otherwise
ID_ASSIGNED, ID_DENIED, ID_CHK_REQ and ID_REMOVE become FSM events and
all other types (including ID_VERIFY and ID_CHK_RES, marked TODO in
the source) are ignored. -/
def tei_ph_data_ind (s : TeiSys) (i : Nat) (mt : Nat) (dp : Dp) : TeiSys :=
  let e := s.ents.getD i ent0
  if e.fixedTei = true ∧ e.lapdNet = false then s
  else if mt = ID_ASSIGNED then fsmEvent s i (.assign dp)
  else if mt = ID_DENIED then fsmEvent s i (.denied dp)
  else if mt = ID_CHK_REQ then fsmEvent s i (.chkreq dp)
  else if mt = ID_REMOVE then fsmEvent s i (.remove dp)
  else s

/-- Decoded content of a valid TEI management frame: message type,
reference value and tei, as extracted by ph_data_ind and the handlers. -/
structure TeiFrame where
  mt : Nat
  ri : Nat
  tei : Nat
deriving DecidableEq, Repr

/-- Decode failures, named as in the spec codec section; each
corresponds to one of the structural checks of ph_data_ind (tei.c
lines 455-490, with the switch default as the unknown-type case). -/
inductive FrameErr where
  | tooShort
  | wrongSapi
  | formatErr
  | wrongGroup
  | notUI
  | wrongEntity
  | unknownType
deriving DecidableEq, Repr

/-- The pure structural checks and field extraction of ph_data_ind
(tei.c lines 455-473 plus the switch default): length at least 8, the
SAPI field of byte 0 (byte0 >> 2), the EA bits (byte0 bit 0 clear,
byte1 bit 0 set), the group TEI field of byte 1 (byte1 >> 1), the UI
control code of byte 2 under the 0xef mask, the management entity id
of byte 3, and a message type byte in the range 1..7.  The reference
value is bytes 4..5 big-endian and the tei is byte 7 shifted right by
one, exactly as the handlers read them. -/
def decode (data : List Nat) : Except FrameErr TeiFrame :=
  if data.length < 8 then .error .tooShort
  else if (data.getD 0 0) / 4 ≠ TEI_SAPI then .error .wrongSapi
  else if (data.getD 0 0) % 2 = 1 then .error .formatErr
  else if (data.getD 1 0) % 2 = 0 then .error .formatErr
  else if (data.getD 1 0) / 2 ≠ GROUP_TEI then .error .wrongGroup
  else if (data.getD 2 0) &&& 0xef ≠ UI then .error .notUI
  else if data.getD 3 0 ≠ TEI_ENTITY_ID then .error .wrongEntity
  else if 1 ≤ data.getD 6 0 ∧ data.getD 6 0 ≤ 7 then
    .ok ⟨data.getD 6 0, (data.getD 4 0) * 256 + data.getD 5 0, (data.getD 7 0) / 2⟩
  else .error .unknownType

/-- The 8-octet frame built by put_tei_msg (tei.c lines 197-220):
byte 0 is the SAPI field with the command/response bit set on the
network side, byte 1 the group TEI with EA1, byte 2 the UI code,
byte 3 the management entity id, bytes 4..5 the reference value
big-endian, byte 6 the message type and byte 7 the tei shifted left
with the low bit set; every byte reduced to u_char range. -/
def put_tei_msg_bytes (netCr : Bool) (mId ri tei : Nat) : List Nat :=
  [ TEI_SAPI * 4 + (if netCr then 2 else 0),
    GROUP_TEI * 2 + 1,
    UI,
    TEI_ENTITY_ID,
    (ri / 256) % 256,
    ri % 256,
    mId % 256,
    (tei * 2 + 1) % 256 ]

/-- The dp argument ph_data_ind passes to the handlers: bytes 4..7 of
the inbound frame. -/
def dpOf (data : List Nat) : Dp :=
  ⟨data.getD 4 0, data.getD 5 0, data.getD 6 0, data.getD 7 0⟩

/-- The fan-out loop of ph_data_ind (tei.c lines 496-500): deliver the
message to every registered entity in list order.  Every handler
preserves the length of the entity list, so iterating over the indices
of the original list is the list_for_each_entry walk. -/
def phFanout (s : TeiSys) (mt : Nat) (dp : Dp) : TeiSys :=
  (List.range s.ents.length).foldl (fun t i => tei_ph_data_ind t i mt dp) s

/-- ph_data_ind (tei.c lines 447-503): structural validation (via
decode), then the role switch: ID_REQUEST, ID_CHK_RES and ID_VERIFY
are processed only with MGR_OPT_NETWORK set, ID_ASSIGNED, ID_DENIED,
ID_CHK_REQ and ID_REMOVE only without it; a rejected frame changes
nothing and the function returns -EINVAL (here: false).  An accepted
ID_REQUEST goes to new_tei_req, whose body is empty in the source;
every other accepted type fans out to all registered sessions. -/
def ph_data_ind (s : TeiSys) (data : List Nat) : TeiSys × Bool :=
  match decode data with
  | .error _ => (s, false)
  | .ok f =>
    if f.mt = ID_REQUEST ∨ f.mt = ID_CHK_RES ∨ f.mt = ID_VERIFY then
      if s.net = false then (s, false)
      else if f.mt = ID_REQUEST then (s, true)
      else (phFanout s f.mt (dpOf data), true)
    else if f.mt = ID_ASSIGNED ∨ f.mt = ID_DENIED ∨ f.mt = ID_CHK_REQ ∨
        f.mt = ID_REMOVE then
      if s.net = true then (s, false)
      else (phFanout s f.mt (dpOf data), true)
    else (s, false)

/-- The two l2_tei commands of tei.c (lines 505-529). -/
inductive L2Cmd where
  | mdlAssignInd
  | mdlErrorInd
deriving DecidableEq, Repr

/-- l2_tei (tei.c lines 505-529): MDL_ASSIGN_IND on a fixed-TEI entity
confirms the already-known tei upward with MDL_ASSIGN_REQ, otherwise
it raises EV_IDREQ; MDL_ERROR_IND raises EV_VERIFY unless the tei is
fixed. -/
def l2_tei (s : TeiSys) (i : Nat) (cmd : L2Cmd) : TeiSys :=
  let e := s.ents.getD i ent0
  match cmd with
  | .mdlAssignInd =>
      if e.fixedTei = true then
        { s with notifs := s.notifs ++ [⟨i, .mdlAssignReq, e.tei⟩] }
      else fsmEvent s i .idreq
  | .mdlErrorInd =>
      if e.fixedTei = true then s else fsmEvent s i .verify

/-- The two LAPD protocol variants accepted by create_teimgr. -/
inductive L2Proto where
  | lapdTE
  | lapdNT
deriving DecidableEq, Repr

/-- create_teimgr (tei.c lines 576-637): reject sapi other than 0, a
tei above GROUP_TEI, the TE protocol on a network manager, and on a
user manager the NT protocol as well as a dynamic tei in 64..126; on
success append a fresh entity in ST_TEI_NOP with no pending timer,
fixed-TEI flag for tei below 64 and timer interval 1000 (T201) for TE
or 2000 (T202) otherwise.  Modelled from the spec: create_l2 lives in
layer2.c (not under the provided sources); per the spec the entity
carries the NT flag exactly when it was created with the NT protocol. -/
def create_teimgr (s : TeiSys) (sapi tei : Nat) (proto : L2Proto) : Option TeiSys :=
  if sapi ≠ 0 then none
  else if GROUP_TEI < tei then none
  else if s.net = true ∧ proto = .lapdTE then none
  else if s.user = true ∧ proto = .lapdNT then none
  else if s.user = true ∧ 64 ≤ tei ∧ tei < GROUP_TEI then none
  else some
    { s with ents := s.ents ++ [
      { tei := tei, sapi := sapi,
        fixedTei := decide (tei < 64),
        lapdNet := decide (proto = L2Proto.lapdNT),
        state := .ST_TEI_NOP, ri := 0, nval := 0,
        tval := if proto = .lapdTE then 1000 else 2000,
        timerPending := false }] }

/-- release_tei (tei.c lines 562-574): delete the session timer and
unlink the entity from the manager list. -/
def release_tei (s : TeiSys) (i : Nat) : TeiSys :=
  { s with ents := s.ents.eraseIdx i }

/-- The manager send-queue and flow-control state of tei.c: the
MGR_PH_ACTIVE and MGR_PH_NOTREADY option bits, the id of the
outstanding frame, the FIFO of queued frame ids, and the nextid
counter.  inflight counts frames accepted by the lower transport and
not yet acknowledged, and attempts records every frame handed to
ch.recv; both are observers of the transport boundary, which itself
is outside tei.c. -/
structure Mgr where
  phActive : Bool
  phNotReady : Bool
  lastid : Nat
  sendq : List Nat
  nextid : Nat
  inflight : Nat
  attempts : List Nat
deriving DecidableEq, Repr

/-- new_id (tei.c lines 81-93): post-increment nextid, reset to 1 once
the value 0x7fff has been used, and build the correlation id from the
sequence number shifted left 16 with the GROUP_TEI and TEI_SAPI tag
bits, which is the same as this sum because the low 16 bits of the
shifted value are zero. -/
def new_id (m : Mgr) : Nat × Mgr :=
  let id := m.nextid
  let n := if id = 0x7fff then 1 else m.nextid + 1
  (id * 65536 + GROUP_TEI * 256 + TEI_SAPI, { m with nextid := n })

/-- do_send (tei.c lines 95-115): nothing while the link is inactive
or a frame is already outstanding; otherwise dequeue the head, record
it as the outstanding id and hand it to ch.recv; when the transport
rejects it the frame is freed, the not-ready bit cleared again and the
outstanding id reset to none.  ok is the transport verdict. -/
def do_send (m : Mgr) (ok : Bool) : Mgr :=
  if m.phActive = false then m
  else if m.phNotReady = true then m
  else
    match m.sendq with
    | [] => m
    | skbId :: rest =>
        if ok then
          { m with phNotReady := true, sendq := rest, lastid := skbId,
                   inflight := m.inflight + 1, attempts := m.attempts ++ [skbId] }
        else
          { m with phNotReady := false, sendq := rest, lastid := MISDN_ID_NONE,
                   attempts := m.attempts ++ [skbId] }

/-- do_ack (tei.c lines 117-137): only an ack carrying the outstanding
id while the not-ready bit is set has any effect; it confirms the
outstanding frame, and when the link is active and the queue is not
empty the next frame is handed to ch.recv in the same call, becoming
the new outstanding frame on success; otherwise (rejected hand-off,
empty queue, or inactive link) the outstanding id is reset to none and
the not-ready bit cleared. -/
def do_ack (m : Mgr) (ackId : Nat) (ok : Bool) : Mgr :=
  if m.phNotReady = true then
    if ackId = m.lastid then
      if m.phActive = true then
        match m.sendq with
        | skbId :: rest =>
            if ok then
              { m with sendq := rest, lastid := skbId,
                       inflight := m.inflight - 1 + 1,
                       attempts := m.attempts ++ [skbId] }
            else
              { m with sendq := rest, lastid := MISDN_ID_NONE,
                       phNotReady := false, inflight := m.inflight - 1,
                       attempts := m.attempts ++ [skbId] }
        | [] =>
            { m with lastid := MISDN_ID_NONE, phNotReady := false,
                     inflight := m.inflight - 1 }
      else
        { m with lastid := MISDN_ID_NONE, phNotReady := false,
                 inflight := m.inflight - 1 }
    else m
  else m

/-- mgr_send_down (tei.c lines 139-149): append the frame to the send
queue; with an inactive link request activation and defer, otherwise
attempt do_send at once. -/
def mgr_send_down (m : Mgr) (skbId : Nat) (ok : Bool) : Mgr :=
  let m1 := { m with sendq := m.sendq ++ [skbId] }
  if m.phActive = false then m1 else do_send m1 ok

/-- The enqueue path as used by put_tei_msg and dl_unit_data: a fresh
frame gets its id from new_id and goes through mgr_send_down. -/
def mgr_enqueue_new (m : Mgr) (ok : Bool) : Mgr :=
  let p := new_id m
  mgr_send_down p.2 p.1 ok

/-- PH_ACTIVATE_IND handling in mgr_send (tei.c lines 655-658): set
the active bit and attempt do_send. -/
def ph_activate_ind (m : Mgr) (ok : Bool) : Mgr :=
  do_send { m with phActive := true } ok

/-- PH_DEACTIVATE_IND handling in mgr_send (tei.c lines 660-662):
clear the active bit; queued frames stay queued. -/
def ph_deactivate_ind (m : Mgr) : Mgr :=
  { m with phActive := false }

/-- mISDN_create_manager (tei.c lines 686-702): empty entity list and
send queue, nextid 1, lastid none, all option bits clear. -/
def mgrInit : Mgr :=
  { phActive := false, phNotReady := false, lastid := MISDN_ID_NONE,
    sendq := [], nextid := 1, inflight := 0, attempts := [] }

/-- Helper: an updated entry is read back by getD at the same index. -/
theorem getD_set_self {α : Type} {l : List α} {i : Nat} {x d : α}
    (h : i < l.length) : (l.set i x).getD i d = x := by
  simp [List.getD_eq_getElem?_getD, List.getElem?_set_self, h]

/-- Helper: setting one index does not change getD at another. -/
theorem getD_set_ne {α : Type} {l : List α} {i j : Nat} {x d : α}
    (h : i ≠ j) : (l.set i x).getD j d = l.getD j d := by
  simp [List.getD_eq_getElem?_getD, List.getElem?_set_ne, h]

/-- Helper: getD at an in-range index is a member of the list. -/
theorem getD_mem {α : Type} {l : List α} {i : Nat} {d : α}
    (h : i < l.length) : l.getD i d ∈ l := by
  rw [List.getD_eq_getElem?_getD, List.getElem?_eq_getElem h]
  exact List.getElem_mem h

/-- Helper: a pointwise property survives a List.set update whose new
element satisfies it. -/
theorem all_set {α : Type} {P : α → Prop} {l : List α} {x : α}
    (h : ∀ e ∈ l, P e) (hx : P x) (i : Nat) : ∀ e ∈ l.set i x, P e := by
  intro e he
  rcases List.mem_or_eq_of_mem_set he with h1 | h1
  · exact h _ h1
  · exact h1 ▸ hx

/-- Helper: foldl preserves an invariant preserved by every step. -/
theorem foldl_inv {α β : Type} {P : β → Prop} {f : β → α → β}
    (hf : ∀ b a, P b → P (f b a)) :
    ∀ (l : List α) (b : β), P b → P (l.foldl f b) := by
  intro l
  induction l with
  | nil => intro b hb; exact hb
  | cons a t ih => intro b hb; exact ih _ (hf b a hb)

/-- The per-session timer invariant: a timer is pending exactly when
the session is in ST_TEI_IDREQ or ST_TEI_IDVERIFY (any state other
than ST_TEI_NOP). -/
def entInv (e : Ent) : Prop := e.timerPending = true ↔ e.state ≠ TeiState.ST_TEI_NOP

/-- The timer invariant over every registered session of a manager. -/
def sysInv (s : TeiSys) : Prop := ∀ e ∈ s.ents, entInv e

/-- Under the system invariant, the session read at any index (in or
out of range) satisfies the per-session invariant. -/
theorem getD_entInv {s : TeiSys} (h : sysInv s) (i : Nat) :
    entInv (s.ents.getD i ent0) := by
  rcases Nat.lt_or_ge i s.ents.length with hl | hl
  · exact h _ (getD_mem hl)
  · rw [List.getD_eq_getElem?_getD, List.getElem?_eq_none (by omega)]
    simp [entInv, ent0]

theorem sysInv_tei_id_request {s : TeiSys} (h : sysInv s) (i : Nat) :
    sysInv (tei_id_request s i) := by
  unfold tei_id_request
  dsimp only
  split
  · exact h
  · exact all_set h (by simp [entInv]) i

theorem sysInv_tei_id_verify {s : TeiSys} (h : sysInv s) (i : Nat) :
    sysInv (tei_id_verify s i) := by
  unfold tei_id_verify
  dsimp only
  exact all_set h (by simp [entInv]) i

theorem sysInv_tei_assign_req {s : TeiSys} (h : sysInv s) (i : Nat) (dp : Dp)
    (hst : (s.ents.getD i ent0).state = .ST_TEI_NOP) :
    sysInv (tei_assign_req s i dp) := by
  unfold tei_assign_req
  dsimp only
  split
  · exact h
  · refine all_set h ?_ i
    have he := getD_entInv h i
    unfold entInv at he ⊢
    rw [hst] at he
    simp at he
    simp [he]

theorem sysInv_tei_id_assign {s : TeiSys} (h : sysInv s) (i : Nat) (dp : Dp) :
    sysInv (tei_id_assign s i dp) := by
  unfold tei_id_assign
  dsimp only
  split
  · split
    · exact h
    · exact h
  · split
    · exact all_set h (by simp [entInv]) i
    · exact h

theorem sysInv_tei_id_test_dup {s : TeiSys} (h : sysInv s) (i : Nat) (dp : Dp) :
    sysInv (tei_id_test_dup s i dp) := by
  unfold tei_id_test_dup
  dsimp only
  split
  · split
    · split
      · exact sysInv_tei_id_verify h _
      · exact h
    · exact h
  · exact h

theorem sysInv_tei_id_chk_req {s : TeiSys} (h : sysInv s) (i : Nat) (dp : Dp) :
    sysInv (tei_id_chk_req s i dp) := by
  unfold tei_id_chk_req
  dsimp only
  split
  · exact all_set h (by simp [entInv]) i
  · exact h

theorem sysInv_tei_id_remove {s : TeiSys} (h : sysInv s) (i : Nat) (dp : Dp) :
    sysInv (tei_id_remove s i dp) := by
  unfold tei_id_remove
  dsimp only
  split
  · exact all_set h (by simp [entInv]) i
  · exact h

instance entInvDec (e : Ent) : Decidable (entInv e) := by
  unfold entInv; infer_instance

instance sysInvDec (s : TeiSys) : Decidable (sysInv s) := by
  unfold sysInv; infer_instance

theorem sysInv_fsmEvent {s : TeiSys} (h : sysInv s) (i : Nat) (ev : Ev)
    (hev : ev ≠ Ev.timer) : sysInv (fsmEvent s i ev) := by
  cases ev with
  | idreq =>
      unfold fsmEvent; dsimp only
      split
      · exact sysInv_tei_id_request h i
      · exact h
  | assign dp =>
      unfold fsmEvent; dsimp only
      split
      · exact sysInv_tei_id_test_dup h i dp
      · split
        · exact sysInv_tei_id_assign h i dp
        · exact h
  | assignReq dp =>
      unfold fsmEvent; dsimp only
      split
      case isTrue hst => exact sysInv_tei_assign_req h i dp hst
      case isFalse => exact h
  | denied dp =>
      unfold fsmEvent; dsimp only
      split
      · simpa [tei_id_denied] using h
      · exact h
  | chkreq dp =>
      unfold fsmEvent; dsimp only
      split
      · exact sysInv_tei_id_chk_req h i dp
      · exact h
  | remove dp =>
      unfold fsmEvent; dsimp only
      split
      · exact sysInv_tei_id_remove h i dp
      · exact h
  | verify =>
      unfold fsmEvent; dsimp only
      split
      · exact sysInv_tei_id_verify h i
      · exact h
  | timer => exact absurd rfl hev

theorem sysInv_fireTimer {s : TeiSys} (h : sysInv s) (i : Nat) :
    sysInv (fireTimer s i) := by
  unfold fireTimer
  dsimp only
  split
  case isFalse => exact h
  case isTrue hp =>
    have hi : i < s.ents.length := by
      by_contra hc
      rw [List.getD_eq_getElem?_getD, List.getElem?_eq_none (by omega)] at hp
      simp [ent0] at hp
    unfold fsmEvent
    dsimp only
    rw [getD_set_self hi]
    dsimp only
    cases hE : (s.ents.getD i ent0).state with
    | ST_TEI_NOP =>
        rw [if_neg (by simp), if_neg (by simp)]
        exact all_set h (by simp [entInv]) i
    | ST_TEI_IDREQ =>
        rw [if_pos rfl]
        unfold tei_id_req_tout
        dsimp only
        rw [getD_set_self hi]
        dsimp only
        split
        · rw [List.set_set]
          exact all_set h (by simp [entInv]) i
        · rw [List.set_set]
          exact all_set h (by simp [entInv]) i
    | ST_TEI_IDVERIFY =>
        rw [if_neg (by simp), if_pos rfl]
        unfold tei_id_ver_tout
        dsimp only
        rw [getD_set_self hi]
        dsimp only
        split
        · rw [List.set_set]
          exact all_set h (by simp [entInv]) i
        · rw [List.set_set]
          exact all_set h (by simp [entInv]) i

theorem sysInv_tei_ph_data_ind {s : TeiSys} (h : sysInv s) (i mt : Nat) (dp : Dp) :
    sysInv (tei_ph_data_ind s i mt dp) := by
  unfold tei_ph_data_ind
  dsimp only
  split
  · exact h
  · split
    · exact sysInv_fsmEvent h i _ (by simp)
    · split
      · exact sysInv_fsmEvent h i _ (by simp)
      · split
        · exact sysInv_fsmEvent h i _ (by simp)
        · split
          · exact sysInv_fsmEvent h i _ (by simp)
          · exact h

theorem sysInv_phFanout {s : TeiSys} (h : sysInv s) (mt : Nat) (dp : Dp) :
    sysInv (phFanout s mt dp) := by
  unfold phFanout
  exact @foldl_inv Nat TeiSys sysInv (fun t i => tei_ph_data_ind t i mt dp)
    (fun b a hb => sysInv_tei_ph_data_ind hb a mt dp)
    (List.range s.ents.length) s h

theorem sysInv_ph_data_ind {s : TeiSys} (h : sysInv s) (data : List Nat) :
    sysInv (ph_data_ind s data).1 := by
  unfold ph_data_ind
  split
  · exact h
  · split <;> (try split) <;> (try split) <;>
      first
        | exact h
        | exact sysInv_phFanout h _ _

theorem sysInv_l2_tei {s : TeiSys} (h : sysInv s) (i : Nat) (cmd : L2Cmd) :
    sysInv (l2_tei s i cmd) := by
  cases cmd with
  | mdlAssignInd =>
      unfold l2_tei
      dsimp only
      split
      · exact fun e he => h e he
      · exact sysInv_fsmEvent h i Ev.idreq (by simp)
  | mdlErrorInd =>
      unfold l2_tei
      dsimp only
      split
      · exact h
      · exact sysInv_fsmEvent h i Ev.verify (by simp)

theorem sysInv_create_teimgr {s : TeiSys} (h : sysInv s) (sapi tei : Nat)
    (proto : L2Proto) (s' : TeiSys) (hc : create_teimgr s sapi tei proto = some s') :
    sysInv s' := by
  unfold create_teimgr at hc
  split at hc
  · cases hc
  · split at hc
    · cases hc
    · split at hc
      · cases hc
      · split at hc
        · cases hc
        · split at hc
          · cases hc
          · cases hc
            intro e he
            rcases List.mem_append.mp he with h1 | h1
            · exact h _ h1
            · rw [List.mem_singleton] at h1
              subst h1
              simp [entInv]

theorem sysInv_release_tei {s : TeiSys} (h : sysInv s) (i : Nat) :
    sysInv (release_tei s i) := by
  unfold release_tei
  intro e he
  exact h _ (List.mem_of_mem_eraseIdx he)

/-- The serialized entry points of one manager, as the spec
concurrency model describes them: an inbound frame through
ph_data_ind, a timer expiry, one of the two l2_tei commands, an
externally raised EV_ASSIGN_REQ, entity creation, and entity release.
Per the spec all of these run under the manager lock, so an execution
is a sequence of these steps. -/
inductive MgrStep : TeiSys → TeiSys → Prop where
  | phData {s : TeiSys} (data : List Nat) : MgrStep s (ph_data_ind s data).1
  | timerFire {s : TeiSys} (i : Nat) : MgrStep s (fireTimer s i)
  | l2cmd {s : TeiSys} (i : Nat) (cmd : L2Cmd) : MgrStep s (l2_tei s i cmd)
  | assignReqEv {s : TeiSys} (i : Nat) (dp : Dp) :
      MgrStep s (fsmEvent s i (.assignReq dp))
  | createEnt {s : TeiSys} (sapi tei : Nat) (proto : L2Proto) (s' : TeiSys)
      (hc : create_teimgr s sapi tei proto = some s') : MgrStep s s'
  | releaseEnt {s : TeiSys} (i : Nat) : MgrStep s (release_tei s i)

/-- C1: for every TEI session and after every handled event, a pending
retry timer exists iff the session state is ST_TEI_IDREQ or
ST_TEI_IDVERIFY: the invariant that a timer is pending exactly in the
two non-idle states is preserved by every manager entry point (frame
dispatch, timer expiry, the l2_tei commands, EV_ASSIGN_REQ, entity
creation and release); every transition into those states arms the
timer and every transition out of them cancels it. -/
theorem tei_timer_pending_invariant {s s' : TeiSys} (h : sysInv s)
    (hstep : MgrStep s s') : sysInv s' := by
  cases hstep with
  | phData data => exact sysInv_ph_data_ind h data
  | timerFire i => exact sysInv_fireTimer h i
  | l2cmd i cmd => exact sysInv_l2_tei h i cmd
  | assignReqEv i dp => exact sysInv_fsmEvent h i (Ev.assignReq dp) (by simp)
  | createEnt sapi tei proto s' hc => exact sysInv_create_teimgr h sapi tei proto s' hc
  | releaseEnt i => exact sysInv_release_tei h i

/-- Concrete one-entity manager used by the C1 witness. -/
def c1sys : TeiSys :=
  { ents := [{ ent0 with tei := 70 }], net := false, user := true,
    rng := [11, 12, 13], msgs := [], notifs := [] }

/-- Witness for C1: the invariant holds on a concrete manager and is
carried through a concrete step by the theorem. -/
theorem tei_timer_pending_invariant_witness :
    sysInv c1sys ∧ sysInv (fireTimer c1sys 0) :=
  ⟨by decide, tei_timer_pending_invariant (by decide) (MgrStep.timerFire 0)⟩

/-- C2: delivering EV_IDREQ to an idle session whose entity tei equals
GROUP_TEI draws the next random value as fresh ri, sends exactly one
ID_REQUEST(ri, GROUP_TEI), moves the session to ST_TEI_IDREQ with nval
3 and the timer armed and emits no notification; if the tei is already
assigned the event is a no-op; and three timer expiries with no reply
produce exactly one MDL_ERROR_RSP (AssignmentFailed) notification and
return the session to ST_TEI_NOP with the tei still GROUP_TEI and no
timer pending. -/
theorem tei_start_assign_behavior (s : TeiSys) (i : Nat) (hi : i < s.ents.length)
    (hst : (s.ents.getD i ent0).state = TeiState.ST_TEI_NOP) :
    ((s.ents.getD i ent0).tei ≠ GROUP_TEI → fsmEvent s i Ev.idreq = s) ∧
    ((s.ents.getD i ent0).tei = GROUP_TEI →
      (fsmEvent s i Ev.idreq).msgs =
        s.msgs ++ [⟨i, ID_REQUEST, random_ri_val s.rng, GROUP_TEI⟩] ∧
      ((fsmEvent s i Ev.idreq).ents.getD i ent0).state = TeiState.ST_TEI_IDREQ ∧
      ((fsmEvent s i Ev.idreq).ents.getD i ent0).ri = random_ri_val s.rng ∧
      ((fsmEvent s i Ev.idreq).ents.getD i ent0).nval = 3 ∧
      ((fsmEvent s i Ev.idreq).ents.getD i ent0).timerPending = true ∧
      (fsmEvent s i Ev.idreq).notifs = s.notifs ∧
      (fireTimer (fireTimer (fireTimer (fsmEvent s i Ev.idreq) i) i) i).notifs =
        s.notifs ++ [⟨i, Prim.mdlErrorRsp, 0⟩] ∧
      ((fireTimer (fireTimer (fireTimer (fsmEvent s i Ev.idreq) i) i) i).ents.getD
          i ent0).state = TeiState.ST_TEI_NOP ∧
      ((fireTimer (fireTimer (fireTimer (fsmEvent s i Ev.idreq) i) i) i).ents.getD
          i ent0).tei = GROUP_TEI ∧
      ((fireTimer (fireTimer (fireTimer (fsmEvent s i Ev.idreq) i) i) i).ents.getD
          i ent0).timerPending = false) := by
  constructor
  · intro htei
    simp [fsmEvent, hst, tei_id_request, htei, -List.getD_eq_getElem?_getD]
  · intro htei
    refine ⟨?_, ?_, ?_, ?_, ?_, ?_, ?_, ?_, ?_, ?_⟩ <;>
      simp [fsmEvent, fireTimer, hst, htei, tei_id_request, tei_id_req_tout,
        List.set_set, getD_set_self hi, random_ri_val,
        -List.getD_eq_getElem?_getD]

/-- Concrete one-entity manager used by the C2 witness: an unassigned
idle entity and a known randomness supply. -/
def c2sys : TeiSys :=
  { ents := [ent0], net := false, user := true, rng := [21, 22, 23, 24],
    msgs := [], notifs := [] }

/-- Witness for C2 at a concrete manager: one ID_REQUEST goes out and
three expiries yield exactly the one failure notification. -/
theorem tei_start_assign_behavior_witness :
    (fsmEvent c2sys 0 Ev.idreq).msgs =
      c2sys.msgs ++ [⟨0, ID_REQUEST, random_ri_val c2sys.rng, GROUP_TEI⟩] ∧
    (fireTimer (fireTimer (fireTimer (fsmEvent c2sys 0 Ev.idreq) 0) 0) 0).notifs =
      c2sys.notifs ++ [⟨0, Prim.mdlErrorRsp, 0⟩] := by
  have h := (tei_start_assign_behavior c2sys 0 (by decide) (by decide)).2 (by decide)
  exact ⟨h.1, h.2.2.2.2.2.2.1⟩

/-- Two-entity manager refuting C3 as stated: entity 0 is requesting
with outstanding ri 5, entity 1 already holds tei 70 with stored ri 9. -/
def c3sys : TeiSys :=
  { ents := [{ ent0 with state := .ST_TEI_IDREQ, ri := 5, nval := 3, timerPending := true },
             { ent0 with tei := 70, ri := 9 }],
    net := false, user := true, rng := [], msgs := [], notifs := [] }

/-- The dp bytes of an inbound ID_ASSIGNED frame with ri 5 and tei 70
(byte 3 carries 70 shifted left with the low bit set). -/
def c3dp : Dp := ⟨0, 5, 2, 141⟩

/-- C3 counterexample: entity 0 is in ST_TEI_IDREQ and the frame ri
equals its stored ri, yet because findtei sees tei 70 already bound to
entity 1 the session stays in ST_TEI_IDREQ with the timer still
pending and the tei still unassigned, and the only notification is the
MDL_ERROR_RSP on entity 1 - not the MDL_ASSIGN_REQ completion the
claim requires. -/
theorem tei_id_assign_counterexample :
    (c3sys.ents.getD 0 ent0).state = TeiState.ST_TEI_IDREQ ∧
    (c3sys.ents.getD 0 ent0).ri = c3dp.b0 * 256 + c3dp.b1 ∧
    ((fsmEvent c3sys 0 (Ev.assign c3dp)).ents.getD 0 ent0).state = TeiState.ST_TEI_IDREQ ∧
    ((fsmEvent c3sys 0 (Ev.assign c3dp)).ents.getD 0 ent0).timerPending = true ∧
    ((fsmEvent c3sys 0 (Ev.assign c3dp)).ents.getD 0 ent0).tei = GROUP_TEI ∧
    (fsmEvent c3sys 0 (Ev.assign c3dp)).notifs = [⟨1, Prim.mdlErrorRsp, 0⟩] := by
  decide

/-- C3 (amended): provided no registered entity currently holds the
tei carried by the frame (findtei returns none), an ID_ASSIGNED whose
ri equals the stored ri of a session in ST_TEI_IDREQ cancels the
pending timer, moves the session to ST_TEI_NOP, sets the entity tei to
the tei carried by the frame (the modelled tei_l2 MDL_ASSIGN_REQ
effect) and emits exactly one MDL_ASSIGN_REQ (AssignmentComplete)
notification and no frame. -/
theorem tei_id_assign_complete (s : TeiSys) (i : Nat) (hi : i < s.ents.length)
    (dp : Dp) (hst : (s.ents.getD i ent0).state = TeiState.ST_TEI_IDREQ)
    (hfind : findtei s.ents (dp.b3 / 2) = none)
    (hri : dp.b0 * 256 + dp.b1 = (s.ents.getD i ent0).ri) :
    ((fsmEvent s i (Ev.assign dp)).ents.getD i ent0).state = TeiState.ST_TEI_NOP ∧
    ((fsmEvent s i (Ev.assign dp)).ents.getD i ent0).timerPending = false ∧
    ((fsmEvent s i (Ev.assign dp)).ents.getD i ent0).tei = dp.b3 / 2 ∧
    (fsmEvent s i (Ev.assign dp)).notifs =
      s.notifs ++ [⟨i, Prim.mdlAssignReq, dp.b3 / 2⟩] ∧
    (fsmEvent s i (Ev.assign dp)).msgs = s.msgs := by
  refine ⟨?_, ?_, ?_, ?_, ?_⟩ <;>
    simp [fsmEvent, hst, tei_id_assign, hfind, hri, getD_set_self hi,
      -List.getD_eq_getElem?_getD]

/-- One-entity manager for the amended C3 witness: a session in
ST_TEI_IDREQ with outstanding ri 5 and no other entity registered. -/
def c3wsys : TeiSys :=
  { ents := [{ ent0 with state := .ST_TEI_IDREQ, ri := 5, nval := 3, timerPending := true }],
    net := false, user := true, rng := [], msgs := [], notifs := [] }

/-- Witness for the amended C3: the concrete frame ri 5 / tei 70
completes the assignment. -/
theorem tei_id_assign_complete_witness :
    ((fsmEvent c3wsys 0 (Ev.assign c3dp)).ents.getD 0 ent0).state = TeiState.ST_TEI_NOP ∧
    ((fsmEvent c3wsys 0 (Ev.assign c3dp)).ents.getD 0 ent0).tei = 70 ∧
    (fsmEvent c3wsys 0 (Ev.assign c3dp)).notifs = [⟨0, Prim.mdlAssignReq, 70⟩] := by
  have h := tei_id_assign_complete c3wsys 0 (by decide) c3dp (by decide) (by decide)
    (by decide)
  exact ⟨h.1, h.2.2.1, h.2.2.2.1⟩

/-- C4: an ID_ASSIGNED delivered to an idle session, carrying a tei
that findtei resolves to a different registered entity whose stored ri
differs from the frame ri, acts exactly as raising EV_VERIFY on that
other session, and the receiving session itself (state, timer, entity
binding) is unchanged. -/
theorem tei_id_test_dup_raises_verify (s : TeiSys) (i j : Nat) (dp : Dp)
    (hst : (s.ents.getD i ent0).state = TeiState.ST_TEI_NOP)
    (hfind : findtei s.ents (dp.b3 / 2) = some j)
    (hij : j ≠ i)
    (hri : dp.b0 * 256 + dp.b1 ≠ (s.ents.getD j ent0).ri) :
    fsmEvent s i (Ev.assign dp) = fsmEvent s j Ev.verify ∧
    (fsmEvent s i (Ev.assign dp)).ents.getD i ent0 = s.ents.getD i ent0 := by
  have h1 : fsmEvent s i (Ev.assign dp) = fsmEvent s j Ev.verify := by
    simp [fsmEvent, hst, tei_id_test_dup, hfind, hri, -List.getD_eq_getElem?_getD]
  refine ⟨h1, ?_⟩
  rw [h1]
  by_cases hjs : (s.ents.getD j ent0).state = TeiState.ST_TEI_NOP
  · simp [fsmEvent, hjs, tei_id_verify, getD_set_ne hij, -List.getD_eq_getElem?_getD]
  · simp [fsmEvent, hjs, -List.getD_eq_getElem?_getD]

/-- Two-entity manager for the C4 witness: entity 0 idle and
unassigned, entity 1 bound to tei 70 with stored ri 9. -/
def c4sys : TeiSys :=
  { ents := [ent0, { ent0 with tei := 70, ri := 9 }],
    net := false, user := true, rng := [31, 32], msgs := [], notifs := [] }

/-- The dp bytes of an ID_ASSIGNED frame with ri 6 and tei 70, not
matching the stored ri 9 of entity 1. -/
def c4dp : Dp := ⟨0, 6, 2, 141⟩

/-- Witness for C4 at a concrete manager. -/
theorem tei_id_test_dup_raises_verify_witness :
    fsmEvent c4sys 0 (Ev.assign c4dp) = fsmEvent c4sys 1 Ev.verify ∧
    (fsmEvent c4sys 0 (Ev.assign c4dp)).ents.getD 0 ent0 = c4sys.ents.getD 0 ent0 :=
  tei_id_test_dup_raises_verify c4sys 0 1 c4dp (by decide) (by decide) (by decide)
    (by decide)

/-- Helper for C5: a timer expiry on a session in ST_TEI_IDVERIFY
never adds an MDL_ERROR_RSP notification; every notification after the
expiry is either an old one or has a different primitive. -/
theorem fireTimer_verify_no_error (t : TeiSys) (k : Nat)
    (hks : (t.ents.getD k ent0).state = TeiState.ST_TEI_IDVERIFY) :
    ∀ n ∈ (fireTimer t k).notifs, n ∈ t.notifs ∨ n.prim ≠ Prim.mdlErrorRsp := by
  have hk : k < t.ents.length := by
    by_contra hc
    rw [List.getD_eq_getElem?_getD, List.getElem?_eq_none (by omega)] at hks
    simp [ent0] at hks
  intro n hn'
  unfold fireTimer at hn'
  dsimp only at hn'
  split at hn'
  case isFalse => exact Or.inl hn'
  case isTrue hp' =>
    unfold fsmEvent at hn'
    dsimp only at hn'
    rw [getD_set_self hk] at hn'
    dsimp only at hn'
    rw [hks] at hn'
    rw [if_neg (by simp), if_pos rfl] at hn'
    unfold tei_id_ver_tout at hn'
    dsimp only at hn'
    rw [getD_set_self hk] at hn'
    split at hn'
    · exact Or.inl hn'
    · rcases List.mem_append.mp hn' with h1 | h1
      · exact Or.inl h1
      · rw [List.mem_singleton] at h1
        subst h1
        exact Or.inr (by simp)

/-- C5: a session in ST_TEI_IDVERIFY with nval 2 and the timer armed
retransmits exactly one ID_VERIFY on the first expiry (staying in
ST_TEI_IDVERIFY with nval 1, timer rearmed, no notification), emits
exactly one MDL_REMOVE_REQ (RemovalRequested) and returns to
ST_TEI_NOP on the second expiry, and no expiry on the verify path ever
adds an MDL_ERROR_RSP (AssignmentFailed) notification. -/
theorem tei_verify_timeout_behavior (s : TeiSys) (i : Nat) (hi : i < s.ents.length)
    (hst : (s.ents.getD i ent0).state = TeiState.ST_TEI_IDVERIFY)
    (hn : (s.ents.getD i ent0).nval = 2)
    (hp : (s.ents.getD i ent0).timerPending = true) :
    (fireTimer s i).msgs = s.msgs ++ [⟨i, ID_VERIFY, 0, (s.ents.getD i ent0).tei⟩] ∧
    (fireTimer s i).notifs = s.notifs ∧
    ((fireTimer s i).ents.getD i ent0).state = TeiState.ST_TEI_IDVERIFY ∧
    ((fireTimer s i).ents.getD i ent0).timerPending = true ∧
    ((fireTimer s i).ents.getD i ent0).nval = 1 ∧
    (fireTimer (fireTimer s i) i).notifs = s.notifs ++ [⟨i, Prim.mdlRemoveReq, 0⟩] ∧
    (fireTimer (fireTimer s i) i).msgs = (fireTimer s i).msgs ∧
    ((fireTimer (fireTimer s i) i).ents.getD i ent0).state = TeiState.ST_TEI_NOP ∧
    ((fireTimer (fireTimer s i) i).ents.getD i ent0).timerPending = false ∧
    (∀ (t : TeiSys) (k : Nat),
      (t.ents.getD k ent0).state = TeiState.ST_TEI_IDVERIFY →
      ∀ n ∈ (fireTimer t k).notifs, n ∈ t.notifs ∨ n.prim ≠ Prim.mdlErrorRsp) := by
  refine ⟨?_, ?_, ?_, ?_, ?_, ?_, ?_, ?_, ?_,
    fun t k hks => fireTimer_verify_no_error t k hks⟩ <;>
    simp [fireTimer, fsmEvent, hst, hn, hp, tei_id_ver_tout,
      List.set_set, getD_set_self hi, -List.getD_eq_getElem?_getD]

/-- One-entity manager for the C5 witness: a verifying session with
tei 70, nval 2 and the timer armed. -/
def c5ent : Ent :=
  { ent0 with tei := 70, state := .ST_TEI_IDVERIFY, nval := 2, timerPending := true }

/-- The C5 witness manager holding just the verifying entity. -/
def c5sys : TeiSys :=
  { ents := [c5ent], net := false, user := true, rng := [], msgs := [], notifs := [] }

/-- Witness for C5 at a concrete manager: first expiry retransmits,
second expiry requests removal. -/
theorem tei_verify_timeout_behavior_witness :
    (fireTimer c5sys 0).msgs =
      c5sys.msgs ++ [⟨0, ID_VERIFY, 0, (c5sys.ents.getD 0 ent0).tei⟩] ∧
    (fireTimer (fireTimer c5sys 0) 0).notifs =
      c5sys.notifs ++ [⟨0, Prim.mdlRemoveReq, 0⟩] := by
  have h := tei_verify_timeout_behavior c5sys 0 (by decide) (by decide) (by decide)
    (by decide)
  exact ⟨h.1, h.2.2.2.2.2.1⟩

/-- C6: for every valid message type, 16-bit reference value and tei
in 0..127, decoding the 8-octet frame built by the encoder passes all
structural checks of the decoder (SAPI field, EA bits, group TEI, UI
code, management entity id, message type) and reproduces exactly the
message type, reference value and tei, on both command/response
variants. -/
theorem decode_put_tei_msg (netCr : Bool) (mt ri tei : Nat)
    (hmt1 : 1 ≤ mt) (hmt7 : mt ≤ 7) (hri : ri < 65536) (htei : tei ≤ 127) :
    decode (put_tei_msg_bytes netCr mt ri tei) = Except.ok ⟨mt, ri, tei⟩ := by
  have hmtm : mt % 256 = mt := Nat.mod_eq_of_lt (by omega)
  have hriEq : ri / 256 % 256 * 256 + ri % 256 = ri := by omega
  have hteiEq : (tei * 2 + 1) % 256 / 2 = tei := by omega
  cases netCr <;>
    simp [decode, put_tei_msg_bytes, TEI_SAPI, GROUP_TEI, UI, TEI_ENTITY_ID,
      hmtm, hmt1, hmt7, hriEq, hteiEq] <;>
    decide

/-- Witness for C6 at a concrete frame: ID_ASSIGNED with ri 0x1234
and tei 70 survives the round trip. -/
theorem decode_put_tei_msg_witness :
    decode (put_tei_msg_bytes false 2 0x1234 70) = Except.ok ⟨2, 0x1234, 70⟩ :=
  decode_put_tei_msg false 2 0x1234 70 (by decide) (by decide) (by decide) (by decide)

/-- The message types the terminal directs at the network side
(processed only with MGR_OPT_NETWORK set). -/
def termDirectedMsg (mt : Nat) : Prop :=
  mt = ID_REQUEST ∨ mt = ID_CHK_RES ∨ mt = ID_VERIFY

/-- The message types the network directs at the terminal side
(processed only with MGR_OPT_NETWORK clear). -/
def netDirectedMsg (mt : Nat) : Prop :=
  mt = ID_ASSIGNED ∨ mt = ID_DENIED ∨ mt = ID_CHK_REQ ∨ mt = ID_REMOVE

/-- C7: inbound dispatch enforces the role-direction rule: on a
structurally valid frame, a network-directed message type arriving
with MGR_OPT_NETWORK set is rejected with the manager state untouched,
a terminal-directed type arriving without MGR_OPT_NETWORK likewise,
and the frame is accepted exactly when the message direction matches
the manager role. -/
theorem ph_data_ind_role_gate (s : TeiSys) (data : List Nat) (f : TeiFrame)
    (hok : decode data = Except.ok f) :
    (netDirectedMsg f.mt → s.net = true → ph_data_ind s data = (s, false)) ∧
    (termDirectedMsg f.mt → s.net = false → ph_data_ind s data = (s, false)) ∧
    ((ph_data_ind s data).2 = true ↔
      (termDirectedMsg f.mt ∧ s.net = true) ∨
      (netDirectedMsg f.mt ∧ s.net = false)) := by
  unfold ph_data_ind
  rw [hok]
  dsimp only
  refine ⟨?_, ?_, ?_⟩
  · intro hnetd hn
    rcases hnetd with h | h | h | h <;>
      simp [h, hn, ID_REQUEST, ID_CHK_RES, ID_VERIFY, ID_ASSIGNED, ID_DENIED,
        ID_CHK_REQ, ID_REMOVE]
  · intro hterm hn
    rcases hterm with h | h | h <;>
      simp [h, hn, ID_REQUEST, ID_CHK_RES, ID_VERIFY]
  · constructor
    · intro hacc
      by_cases hterm : f.mt = ID_REQUEST ∨ f.mt = ID_CHK_RES ∨ f.mt = ID_VERIFY
      · left
        refine ⟨hterm, ?_⟩
        by_cases hn : s.net = true
        · exact hn
        · rw [if_pos hterm, if_pos (by simpa using hn)] at hacc
          simp at hacc
      · by_cases hnetd : f.mt = ID_ASSIGNED ∨ f.mt = ID_DENIED ∨
            f.mt = ID_CHK_REQ ∨ f.mt = ID_REMOVE
        · right
          refine ⟨hnetd, ?_⟩
          by_cases hn : s.net = true
          · rw [if_neg hterm, if_pos hnetd, if_pos hn] at hacc
            simp at hacc
          · simpa using hn
        · rw [if_neg hterm, if_neg hnetd] at hacc
          simp at hacc
    · rintro (⟨hterm, hn⟩ | ⟨hnetd, hn⟩)
      · have hterm1 : f.mt = ID_REQUEST ∨ f.mt = ID_CHK_RES ∨ f.mt = ID_VERIFY := hterm
        rw [if_pos hterm1, if_neg (by simp [hn])]
        by_cases h1 : f.mt = ID_REQUEST
        · rw [if_pos h1]
        · rw [if_neg h1]
      · have hnetd1 : f.mt = ID_ASSIGNED ∨ f.mt = ID_DENIED ∨ f.mt = ID_CHK_REQ ∨
            f.mt = ID_REMOVE := hnetd
        have hterm1 : ¬(f.mt = ID_REQUEST ∨ f.mt = ID_CHK_RES ∨ f.mt = ID_VERIFY) := by
          rcases hnetd1 with h | h | h | h <;>
            simp [h, ID_REQUEST, ID_CHK_RES, ID_VERIFY, ID_ASSIGNED, ID_DENIED,
              ID_CHK_REQ, ID_REMOVE]
        rw [if_neg hterm1, if_pos hnetd1, if_neg (by simp [hn])]

/-- A terminal-role manager with one dynamic entity, target of the C7
witness frame. -/
def c7sys : TeiSys :=
  { ents := [ent0], net := true, user := false, rng := [], msgs := [], notifs := [] }

/-- The C7 witness frame: a well-formed ID_ASSIGNED (network-directed)
wire frame. -/
def c7data : List Nat := put_tei_msg_bytes false 2 5 70

/-- Witness for C7: the network-directed ID_ASSIGNED frame arriving at
a manager with MGR_OPT_NETWORK set is rejected unchanged. -/
theorem ph_data_ind_role_gate_witness :
    ph_data_ind c7sys c7data = (c7sys, false) :=
  (ph_data_ind_role_gate c7sys c7data ⟨2, 5, 70⟩ rfl).1 (Or.inl rfl) rfl

/-- C10: an entity with FLG_FIXED_TEI set and FLG_LAPD_NET clear
discards every inbound TEI management message before it reaches the
state machine: tei_ph_data_ind returns the manager unchanged for every
message type and payload (in particular ID_REMOVE and ID_CHK_REQ never
trigger a release or a check response there); and on a user-side
(non-network) manager every entity that create_teimgr registers
indeed has FLG_LAPD_NET clear, since the NT protocol is rejected
there. -/
theorem fixed_tei_discard (s : TeiSys) (i mt : Nat) (dp : Dp)
    (hf : (s.ents.getD i ent0).fixedTei = true)
    (hl : (s.ents.getD i ent0).lapdNet = false) :
    tei_ph_data_ind s i mt dp = s ∧
    (∀ (t : TeiSys) (sapi tei : Nat) (proto : L2Proto) (t' : TeiSys),
      t.user = true → create_teimgr t sapi tei proto = some t' →
      ∀ e ∈ t'.ents, e ∈ t.ents ∨ e.lapdNet = false) := by
  constructor
  · unfold tei_ph_data_ind
    dsimp only
    rw [if_pos ⟨hf, hl⟩]
  · intro t sapi tei proto t' hu hc
    unfold create_teimgr at hc
    split at hc
    · cases hc
    · split at hc
      · cases hc
      · split at hc
        · cases hc
        · split at hc
          case isTrue => cases hc
          case isFalse hnt =>
            split at hc
            · cases hc
            · cases hc
              intro e he
              rcases List.mem_append.mp he with h1 | h1
              · exact Or.inl h1
              · rw [List.mem_singleton] at h1
                subst h1
                right
                have hpr : proto ≠ L2Proto.lapdNT := fun hp => hnt ⟨hu, hp⟩
                simp [hpr]

/-- A user-side manager with one fixed-TEI entity (tei 5), target of
the C10 witness. -/
def c10sys : TeiSys :=
  { ents := [{ ent0 with tei := 5, fixedTei := true }], net := false, user := true,
    rng := [], msgs := [], notifs := [] }

/-- Witness for C10: an ID_REMOVE frame whose tei matches the fixed
tei of the entity is still discarded unchanged. -/
theorem fixed_tei_discard_witness :
    tei_ph_data_ind c10sys 0 ID_REMOVE ⟨0, 0, 6, 11⟩ = c10sys :=
  (fixed_tei_discard c10sys 0 ID_REMOVE ⟨0, 0, 6, 11⟩ (by decide) (by decide)).1

/-- The C8 invariant on the manager flow-control state: the not-ready
bit is set exactly when an outstanding correlation id is recorded, the
number of unacknowledged frames at the transport matches that bit (so
it never exceeds one), every queued frame id is below 2^31 (hence
never the none sentinel), and the nextid counter stays in 1..0x7fff. -/
def QInv (m : Mgr) : Prop :=
  (m.phNotReady = true ↔ m.lastid ≠ MISDN_ID_NONE) ∧
  m.inflight = (if m.phNotReady = true then 1 else 0) ∧
  (∀ id ∈ m.sendq, id < 0x80000000) ∧
  1 ≤ m.nextid ∧ m.nextid ≤ 0x7fff

instance QInvDec (m : Mgr) : Decidable (QInv m) := by
  unfold QInv; infer_instance

theorem QInv_do_send {m : Mgr} (h : QInv m) (ok : Bool) : QInv (do_send m ok) := by
  obtain ⟨h1, h2, h3, h4, h5⟩ := h
  unfold do_send
  split
  · exact ⟨h1, h2, h3, h4, h5⟩
  case isFalse hact =>
    split
    case isTrue hnr => exact ⟨h1, h2, h3, h4, h5⟩
    case isFalse hnr =>
      have hinf : m.inflight = 0 := by rw [h2, if_neg hnr]
      rcases hq : m.sendq with _ | ⟨skbId, rest⟩
      · dsimp only
        exact ⟨h1, h2, h3, h4, h5⟩
      · dsimp only
        have hid : skbId < 0x80000000 := h3 skbId (by rw [hq]; exact List.mem_cons_self _ _)
        have hrest : ∀ id ∈ rest, id < 0x80000000 :=
          fun id hm => h3 id (by rw [hq]; exact List.mem_cons_of_mem _ hm)
        split
        · refine ⟨?_, ?_, hrest, h4, h5⟩
          · simp [MISDN_ID_NONE]
            omega
          · simp [hinf]
        · refine ⟨?_, ?_, hrest, h4, h5⟩
          · simp [MISDN_ID_NONE]
          · simp [hinf]

theorem QInv_do_ack {m : Mgr} (h : QInv m) (ackId : Nat) (ok : Bool) :
    QInv (do_ack m ackId ok) := by
  obtain ⟨h1, h2, h3, h4, h5⟩ := h
  unfold do_ack
  split
  case isFalse => exact ⟨h1, h2, h3, h4, h5⟩
  case isTrue hnr =>
    split
    case isFalse => exact ⟨h1, h2, h3, h4, h5⟩
    case isTrue hid =>
      have hinf : m.inflight = 1 := by rw [h2, if_pos hnr]
      split
      case isTrue hact =>
        rcases hq : m.sendq with _ | ⟨skbId, rest⟩
        · dsimp only
          refine ⟨by simp [MISDN_ID_NONE], by simp [hinf], ?_, h4, h5⟩
          exact fun id hm => absurd hm (by simp)
        · dsimp only
          have hid2 : skbId < 0x80000000 :=
            h3 skbId (by rw [hq]; exact List.mem_cons_self _ _)
          have hrest : ∀ id ∈ rest, id < 0x80000000 :=
            fun id hm => h3 id (by rw [hq]; exact List.mem_cons_of_mem _ hm)
          split
          · refine ⟨?_, ?_, hrest, h4, h5⟩
            · simp [hnr, MISDN_ID_NONE]
              omega
            · simp [hnr, hinf]
          · refine ⟨?_, ?_, hrest, h4, h5⟩
            · simp [MISDN_ID_NONE]
            · simp [hinf]
      case isFalse hact =>
        refine ⟨by simp [MISDN_ID_NONE], by simp [hinf], h3, h4, h5⟩

theorem QInv_mgr_enqueue_new {m : Mgr} (h : QInv m) (ok : Bool) :
    QInv (mgr_enqueue_new m ok) := by
  obtain ⟨h1, h2, h3, h4, h5⟩ := h
  unfold mgr_enqueue_new new_id mgr_send_down
  dsimp only
  have hq : ∀ id ∈ m.sendq ++ [m.nextid * 65536 + GROUP_TEI * 256 + TEI_SAPI],
      id < 0x80000000 := by
    intro id hm
    rcases List.mem_append.mp hm with hmem | hmem
    · exact h3 id hmem
    · rw [List.mem_singleton] at hmem
      subst hmem
      unfold GROUP_TEI TEI_SAPI
      omega
  have hn4 : 1 ≤ (if m.nextid = 0x7fff then 1 else m.nextid + 1) := by
    split <;> omega
  have hn5 : (if m.nextid = 0x7fff then 1 else m.nextid + 1) ≤ 0x7fff := by
    split
    · omega
    case isFalse hne => omega
  by_cases hact : m.phActive = false
  · rw [if_pos hact]
    exact ⟨h1, h2, hq, hn4, hn5⟩
  · rw [if_neg hact]
    exact @QInv_do_send
      { phActive := m.phActive, phNotReady := m.phNotReady, lastid := m.lastid,
        sendq := m.sendq ++ [m.nextid * 65536 + GROUP_TEI * 256 + TEI_SAPI],
        nextid := if m.nextid = 0x7fff then 1 else m.nextid + 1,
        inflight := m.inflight, attempts := m.attempts }
      ⟨h1, h2, hq, hn4, hn5⟩ ok

theorem QInv_ph_activate_ind {m : Mgr} (h : QInv m) (ok : Bool) :
    QInv (ph_activate_ind m ok) := by
  obtain ⟨h1, h2, h3, h4, h5⟩ := h
  unfold ph_activate_ind
  exact @QInv_do_send
    { phActive := true, phNotReady := m.phNotReady, lastid := m.lastid,
      sendq := m.sendq, nextid := m.nextid, inflight := m.inflight,
      attempts := m.attempts }
    ⟨h1, h2, h3, h4, h5⟩ ok

theorem QInv_ph_deactivate_ind {m : Mgr} (h : QInv m) :
    QInv (ph_deactivate_ind m) := by
  obtain ⟨h1, h2, h3, h4, h5⟩ := h
  unfold ph_deactivate_ind
  exact ⟨h1, h2, h3, h4, h5⟩

/-- The flow-control operations of the manager: enqueueing a fresh
frame (put_tei_msg / dl_unit_data through mgr_send_down), a direct
do_send attempt, a PH_DATA_CNF ack, and link activation and
deactivation, each with the transport verdict where one is consulted. -/
inductive QStep : Mgr → Mgr → Prop where
  | enqueue {m : Mgr} (ok : Bool) : QStep m (mgr_enqueue_new m ok)
  | trySendStep {m : Mgr} (ok : Bool) : QStep m (do_send m ok)
  | ackStep {m : Mgr} (ackId : Nat) (ok : Bool) : QStep m (do_ack m ackId ok)
  | activate {m : Mgr} (ok : Bool) : QStep m (ph_activate_ind m ok)
  | deactivate {m : Mgr} : QStep m (ph_deactivate_ind m)

/-- C8: starting from the freshly created manager (empty queue, not
ready, no outstanding id), every reachable flow-control state has the
not-ready bit set iff the outstanding correlation id differs from the
none sentinel, and at most one frame is unacknowledged at the
transport; the invariant is preserved by enqueue, send, ack and link
activation and deactivation. -/
theorem mgr_flow_invariant :
    QInv mgrInit ∧
    ∀ m m' : Mgr, QInv m → QStep m m' → QInv m' ∧ m'.inflight ≤ 1 := by
  constructor
  · refine ⟨by simp [mgrInit], by simp [mgrInit], ?_, by simp [mgrInit], by simp [mgrInit]⟩
    intro id hm
    simp [mgrInit] at hm
  · intro m m' hm hstep
    have hpres : QInv m' := by
      cases hstep with
      | enqueue ok => exact QInv_mgr_enqueue_new hm ok
      | trySendStep ok => exact QInv_do_send hm ok
      | ackStep ackId ok => exact QInv_do_ack hm ackId ok
      | activate ok => exact QInv_ph_activate_ind hm ok
      | deactivate => exact QInv_ph_deactivate_ind hm
    refine ⟨hpres, ?_⟩
    rw [hpres.2.1]
    split <;> omega

/-- Witness for C8: one concrete enqueue step out of the initial
manager keeps the invariant and the one-in-flight bound. -/
theorem mgr_flow_invariant_witness :
    QInv (mgr_enqueue_new mgrInit true) ∧ (mgr_enqueue_new mgrInit true).inflight ≤ 1 :=
  mgr_flow_invariant.2 mgrInit (mgr_enqueue_new mgrInit true) (by decide)
    (QStep.enqueue true)

/-- C9: an ack with the not-ready bit clear, or carrying an id other
than the outstanding one, leaves the manager entirely unchanged; a
matching ack with an active link and a non-empty queue hands the queue
head to the transport within the same call, recording it as the new
outstanding id on success and dropping it with the not-ready state
cleared on hand-off failure; a matching ack with an empty queue clears
the outstanding id and the not-ready bit and touches nothing else. -/
theorem do_ack_correctness (m : Mgr) (ackId : Nat) (ok : Bool) :
    (m.phNotReady = false → do_ack m ackId ok = m) ∧
    (ackId ≠ m.lastid → do_ack m ackId ok = m) ∧
    (m.phNotReady = true → ackId = m.lastid → m.phActive = true →
      ∀ skbId rest, m.sendq = skbId :: rest →
        (do_ack m ackId ok).attempts = m.attempts ++ [skbId] ∧
        (do_ack m ackId ok).sendq = rest ∧
        (ok = true →
          (do_ack m ackId ok).lastid = skbId ∧
          (do_ack m ackId ok).phNotReady = true) ∧
        (ok = false →
          (do_ack m ackId ok).lastid = MISDN_ID_NONE ∧
          (do_ack m ackId ok).phNotReady = false)) ∧
    (m.phNotReady = true → ackId = m.lastid → m.sendq = [] →
      (do_ack m ackId ok).lastid = MISDN_ID_NONE ∧
      (do_ack m ackId ok).phNotReady = false ∧
      (do_ack m ackId ok).sendq = [] ∧
      (do_ack m ackId ok).attempts = m.attempts) := by
  refine ⟨?_, ?_, ?_, ?_⟩
  · intro h
    unfold do_ack
    rw [if_neg (by simp [h])]
  · intro h
    unfold do_ack
    by_cases hnr : m.phNotReady = true
    · rw [if_pos hnr, if_neg h]
    · rw [if_neg hnr]
  · intro h1 h2 h3 skbId rest hq
    unfold do_ack
    rw [if_pos h1, if_pos h2, if_pos h3, hq]
    dsimp only
    split
    case isTrue hok =>
      refine ⟨rfl, rfl, fun _ => ⟨rfl, h1⟩, fun hf => ?_⟩
      rw [hok] at hf
      cases hf
    case isFalse hok =>
      refine ⟨rfl, rfl, fun ht => ?_, fun _ => ⟨rfl, rfl⟩⟩
      exact absurd ht hok
  · intro h1 h2 h3
    unfold do_ack
    rw [if_pos h1, if_pos h2]
    by_cases hact : m.phActive = true
    · rw [if_pos hact, h3]
      dsimp only
      exact ⟨rfl, rfl, rfl, rfl⟩
    · rw [if_neg hact]
      exact ⟨rfl, rfl, h3, rfl⟩

/-- Concrete manager for the C9 witness: active link, frame 77
outstanding, frames 88 and 99 queued. -/
def c9mgr : Mgr :=
  { phActive := true, phNotReady := true, lastid := 77, sendq := [88, 99],
    nextid := 4, inflight := 1, attempts := [77] }

/-- Witness for C9: the matching ack chains the next frame out in the
same call and a non-matching ack is a no-op. -/
theorem do_ack_correctness_witness :
    (do_ack c9mgr 77 true).attempts = c9mgr.attempts ++ [88] ∧
    (do_ack c9mgr 77 true).sendq = [99] ∧
    (do_ack c9mgr 77 true).lastid = 88 ∧
    do_ack c9mgr 50 true = c9mgr := by
  have hne := (do_ack_correctness c9mgr 50 true).2.1 (by decide)
  have hch := (do_ack_correctness c9mgr 77 true).2.2.1 rfl rfl rfl 88 [99] rfl
  exact ⟨hch.1, hch.2.1, (hch.2.2.1 rfl).1, hne⟩
